import Mathlib

/-!
Shallow embedding of the "Fund Score" face-analysis application:
the webcam sampling session and pure scoring functions of
`WebcamComponent`, the consumer callback `handleScoreUpdate` of `App`,
and the presentation animator `ScoreDisplay`.

Numeric conventions:
* JavaScript numbers are modelled as rationals (`ℚ`).
* `Math.round x` is `⌊x + 1/2⌋` (JavaScript rounds halves toward positive infinity).
* `Math.max lo (Math.min hi x)` is `jclamp lo hi x`.
* `Math.sin` and `Math.cos` are abstract parameters `msin mcos : ℚ → ℚ`;
  statements that need their range assume `∀ x, |msin x| ≤ 1`.
* React `useState` setters and `useRef` writes performed by the detection
  interval are modelled as ordinary state updates on an explicit session
  state record, visible to subsequent poll ticks.
-/

/-- JavaScript `Math.round`: round halves toward positive infinity. -/
def jround (x : ℚ) : ℤ := ⌊x + 1/2⌋

/-- `Math.max lo (Math.min hi x)` as used throughout the source. -/
def jclamp (lo hi x : ℚ) : ℚ := max lo (min hi x)

/-- The expression-probability vector of one face detection
(`faceapi.FaceExpressions`; the source destructures these fields with
default `0`, so every field is always present here). -/
structure FaceExpressions where
  happy : ℚ
  neutral : ℚ
  sad : ℚ
  angry : ℚ
  surprised : ℚ
  disgusted : ℚ
deriving DecidableEq, Repr

/-- The `detection` part of a `FaceDetectionResult`: the confidence score.
(The optional bounding box is display-only and omitted.) -/
structure FaceDetection where
  score : ℚ
deriving DecidableEq, Repr

/-- One detection snapshot (`FaceDetectionResult` in `WebcamComponent`). -/
structure FaceDetectionResult where
  detection : FaceDetection
  expressions : FaceExpressions
deriving DecidableEq, Repr

/-- `FundabilityAttributes` from `WebcamComponent`. -/
structure FundabilityAttributes where
  charisma : ℤ
  dumbness : ℤ
  single : ℤ
deriving DecidableEq, Repr

/-- A snapshot whose confidence and expression probabilities all lie in `[0,1]`. -/
def ValidSnap (d : FaceDetectionResult) : Prop :=
  0 ≤ d.detection.score ∧ d.detection.score ≤ 1 ∧
  0 ≤ d.expressions.happy ∧ d.expressions.happy ≤ 1 ∧
  0 ≤ d.expressions.neutral ∧ d.expressions.neutral ≤ 1 ∧
  0 ≤ d.expressions.sad ∧ d.expressions.sad ≤ 1 ∧
  0 ≤ d.expressions.angry ∧ d.expressions.angry ≤ 1 ∧
  0 ≤ d.expressions.surprised ∧ d.expressions.surprised ≤ 1 ∧
  0 ≤ d.expressions.disgusted ∧ d.expressions.disgusted ≤ 1

instance (d : FaceDetectionResult) : Decidable (ValidSnap d) := by
  unfold ValidSnap; infer_instance

/-- All three attributes of a set lie in `[lo,hi]`. -/
def attrsInRange (lo hi : ℤ) (a : FundabilityAttributes) : Prop :=
  lo ≤ a.charisma ∧ a.charisma ≤ hi ∧
  lo ≤ a.dumbness ∧ a.dumbness ≤ hi ∧
  lo ≤ a.single ∧ a.single ≤ hi

instance (lo hi : ℤ) (a : FundabilityAttributes) : Decidable (attrsInRange lo hi a) := by
  unfold attrsInRange; infer_instance

/-! ## Pure scoring functions (`WebcamComponent`) -/

/-- `calculateRawFundabilityScore` from `WebcamComponent`.
(The `if (!detection) return 0` guard in the source protects against a
null argument, which cannot occur for this total function.) -/
def calculateRawFundabilityScore (msin : ℚ → ℚ) (detection : FaceDetectionResult) : ℤ :=
  let confidence := detection.detection.score
  let happy := detection.expressions.happy
  let neutral := detection.expressions.neutral
  let sad := detection.expressions.sad
  let angry := detection.expressions.angry
  let surprised := detection.expressions.surprised
  let baseScore := confidence * 50
  let expressionBonus := (happy * 30) + (neutral * 15) + (surprised * 10)
  let expressionPenalty := (sad * 20) + (angry * 25)
  let seedValue := (confidence * 100) + (happy * 50) + (neutral * 25)
  let deterministicFactor := msin seedValue * 5
  let totalScore := baseScore + expressionBonus - expressionPenalty + deterministicFactor
  jround (jclamp 0 100 totalScore)

/-- `calculateAttributes` from `WebcamComponent`. -/
def calculateAttributes (msin mcos : ℚ → ℚ) (detection : FaceDetectionResult) :
    FundabilityAttributes :=
  let confidence := detection.detection.score
  let happy := detection.expressions.happy
  let neutral := detection.expressions.neutral
  let sad := detection.expressions.sad
  let angry := detection.expressions.angry
  let surprised := detection.expressions.surprised
  let disgusted := detection.expressions.disgusted
  let charismaBase := jclamp 0 100
    (confidence * 40 + happy * 40 + surprised * 20 + msin (confidence * 50) * 10)
  let dumbBase := jclamp 0 100
    ((1 - neutral) * 40 + surprised * 30 + disgusted * 30 + mcos (confidence * 70) * 15)
  let singleBase := jclamp 0 100
    (sad * 30 + neutral * 25 + angry * 25 + (1 - happy) * 20 + msin (confidence * 90) * 10)
  { charisma := jround charismaBase
    dumbness := jround dumbBase
    single := jround singleBase }

/-- `calculateDeterministicAttributeTargets` from `WebcamComponent`. -/
def calculateDeterministicAttributeTargets (msin : ℚ → ℚ)
    (initialAttrs : FundabilityAttributes) (detection : FaceDetectionResult) :
    FundabilityAttributes :=
  let confidence := detection.detection.score
  let happy := detection.expressions.happy
  let charismaShift := msin (confidence * 100 + happy * 60) * 15
  let dumbShift := msin (confidence * 120 + happy * 40) * 12
  let singleShift := msin (confidence * 140 + happy * 20) * 18
  let charismaTarget := jclamp 10 95 ((initialAttrs.charisma : ℚ) + charismaShift)
  let dumbTarget := jclamp 5 90 ((initialAttrs.dumbness : ℚ) + dumbShift)
  let singleTarget := jclamp 15 95 ((initialAttrs.single : ℚ) + singleShift)
  { charisma := jround charismaTarget
    dumbness := jround dumbTarget
    single := jround singleTarget }

/-- `interpolateAttributes` from `WebcamComponent`. -/
def interpolateAttributes (initial target : FundabilityAttributes) (progress : ℚ) :
    FundabilityAttributes :=
  { charisma := jround ((initial.charisma : ℚ) +
      ((target.charisma : ℚ) - (initial.charisma : ℚ)) * progress)
    dumbness := jround ((initial.dumbness : ℚ) +
      ((target.dumbness : ℚ) - (initial.dumbness : ℚ)) * progress)
    single := jround ((initial.single : ℚ) +
      ((target.single : ℚ) - (initial.single : ℚ)) * progress) }

/-- One entry of the `feedbackMessages` table. -/
structure FeedbackBand where
  minScore : ℤ
  maxScore : ℤ
  message : String
deriving DecidableEq, Repr

/-- The `feedbackMessages` table from `WebcamComponent`. -/
def feedbackMessages : List FeedbackBand :=
  [ { minScore := 0, maxScore := 20, message := "Even your screen protector is crying!" },
    { minScore := 21, maxScore := 40, message := "VCs might fund you... if you wore a paper bag." },
    { minScore := 41, maxScore := 60, message := "Middle of the pack. Try adding glasses?" },
    { minScore := 61, maxScore := 80, message := "Not bad! You could raise a decent seed round." },
    { minScore := 81, maxScore := 95, message := "Unicorn material! Silicon Valley is calling!" },
    { minScore := 96, maxScore := 100, message := "Are you Elon Musk\x27s secret twin?!" } ]

/-- `getFeedbackMessage` from `WebcamComponent`: first band whose range
contains the score, defaulting to "Analyzing...". -/
def getFeedbackMessage (score : ℤ) : String :=
  match feedbackMessages.find? (fun fb => decide (fb.minScore ≤ score) && decide (score ≤ fb.maxScore)) with
  | some fb => fb.message
  | none => "Analyzing..."

/-- `calculateDeterministicTargetScore` from `WebcamComponent`. -/
def calculateDeterministicTargetScore (msin : ℚ → ℚ) (initialScore : ℤ)
    (detection : FaceDetectionResult) : ℤ :=
  let confidence := detection.detection.score
  let happy := detection.expressions.happy
  let shiftFactor := msin (confidence * 100 + happy * 50) * 15
  let target : ℚ := (initialScore : ℚ) + shiftFactor
  let target := if |shiftFactor| < 3 then target + (if confidence > 1/2 then 5 else -5) else target
  jround (jclamp 15 90 target)

/-! ## Sampling Session (`startFaceDetection` in `WebcamComponent`)

The detection interval body is embedded as a pure transition function
`sessionTick` on an explicit state record.  `useState` values
(`analysisStartTime`, `finalScoreCalculated`) and `useRef` values
(`initialAnimatedScoreRef`, `finalAnimatedTargetScoreRef`,
`initialAttributesRef`, `finalAttributesRef`) are the fields of the state;
their writes become visible to subsequent poll ticks.  A tick with `none`
input models a poll tick with zero detections, a paused or ended video, or
one whose asynchronous inference threw (caught and swallowed by the source).
-/

/-- The session-side state of `WebcamComponent` while the detection
interval runs. -/
structure SessionState where
  analysisStartTime : Option ℤ
  finalScoreCalculated : Bool
  initialAnimatedScore : Option ℤ
  finalAnimatedTargetScore : Option ℤ
  initialAttributes : Option FundabilityAttributes
  finalAttributes : Option FundabilityAttributes
deriving DecidableEq, Repr

/-- One call of the consumer callback `onScoreUpdate`. -/
structure Emission where
  score : ℤ
  feedback : String
  isFinal : Bool
  attributes : FundabilityAttributes
deriving DecidableEq, Repr

def ANALYSIS_DURATION_MS : ℤ := 5000

/-- The state right after the reset performed at the top of
`startFaceDetection`. -/
def initialSessionState : SessionState :=
  { analysisStartTime := none
    finalScoreCalculated := false
    initialAnimatedScore := none
    finalAnimatedTargetScore := none
    initialAttributes := none
    finalAttributes := none }

/-- The body of the `setInterval` callback of `startFaceDetection`:
one poll tick at wall-clock time `currentTime`, with `detections` the first
detection of the tick (or `none` for an empty list, a paused video or an
inference error).  Returns the new session state and the emission (if any)
sent through `onScoreUpdate`. -/
def sessionTick (msin mcos : ℚ → ℚ) (st : SessionState) (currentTime : ℤ)
    (detections : Option FaceDetectionResult) : SessionState × Option Emission :=
  match detections with
  | none => (st, none)
  | some person =>
    if st.finalScoreCalculated then (st, none)
    else
      let st1 : SessionState :=
        match st.analysisStartTime with
        | none =>
          let initialScore := calculateRawFundabilityScore msin person
          let initialAttrs := calculateAttributes msin mcos person
          { analysisStartTime := some currentTime
            finalScoreCalculated := st.finalScoreCalculated
            initialAnimatedScore := some initialScore
            finalAnimatedTargetScore :=
              some (calculateDeterministicTargetScore msin initialScore person)
            initialAttributes := some initialAttrs
            finalAttributes :=
              some (calculateDeterministicAttributeTargets msin initialAttrs person) }
        | some _ => st
      -- `currentTime - (analysisStartTime || currentTime)`: JavaScript `||`
      -- also treats the timestamp `0` as falsy.
      let base : ℤ :=
        match st1.analysisStartTime with
        | none => currentTime
        | some t => if t = 0 then currentTime else t
      let timeElapsed := currentTime - base
      if ANALYSIS_DURATION_MS ≤ timeElapsed then
        let finalScore :=
          st1.finalAnimatedTargetScore.getD (calculateRawFundabilityScore msin person)
        let finalAttrs :=
          st1.finalAttributes.getD (calculateAttributes msin mcos person)
        ({ st1 with finalScoreCalculated := true },
          some { score := finalScore, feedback := getFeedbackMessage finalScore,
                 isFinal := true, attributes := finalAttrs })
      else
        match st1.initialAnimatedScore, st1.finalAnimatedTargetScore,
              st1.initialAttributes, st1.finalAttributes with
        | some i, some t, some ia, some ta =>
          let progress : ℚ := min 1 ((timeElapsed : ℚ) / (ANALYSIS_DURATION_MS : ℚ))
          let animatedScore : ℚ := (i : ℚ) + ((t : ℚ) - (i : ℚ)) * progress
          let currentDisplayScore := jround (jclamp 0 100 animatedScore)
          (st1, some { score := currentDisplayScore,
                       feedback := getFeedbackMessage currentDisplayScore,
                       isFinal := false,
                       attributes := interpolateAttributes ia ta progress })
        | _, _, _, _ => (st1, none)

/-- Run the detection interval over a list of `(time, detection)` poll
ticks, collecting every emission in order. -/
def runSession (msin mcos : ℚ → ℚ) :
    SessionState → List (ℤ × Option FaceDetectionResult) → SessionState × List Emission
  | st, [] => (st, [])
  | st, (now, det) :: ticks =>
    let p := sessionTick msin mcos st now det
    let r := runSession msin mcos p.1 ticks
    (r.1, p.2.toList ++ r.2)

/-- The session state produced by the first tick that carries a usable
detection `d` at time `now` (the `analysisStartTime === null` branch). -/
def initializedSession (msin mcos : ℚ → ℚ) (now : ℤ) (d : FaceDetectionResult) :
    SessionState :=
  let initialScore := calculateRawFundabilityScore msin d
  let initialAttrs := calculateAttributes msin mcos d
  { analysisStartTime := some now
    finalScoreCalculated := false
    initialAnimatedScore := some initialScore
    finalAnimatedTargetScore := some (calculateDeterministicTargetScore msin initialScore d)
    initialAttributes := some initialAttrs
    finalAttributes := some (calculateDeterministicAttributeTargets msin initialAttrs d) }

/-! ## Consumer callback (`handleScoreUpdate` in `App`) -/

/-- The consumer-side state of `App`. -/
structure AppState where
  score : Option ℤ
  feedback : String
  finalScore : Option ℤ
  finalFeedback : String
  isAnalysisComplete : Bool
  attributes : Option FundabilityAttributes
  finalAttributes : Option FundabilityAttributes
deriving DecidableEq, Repr

/-- `handleScoreUpdate` from `App`.  (The source guards the non-final
branch with `else if (!isAnalysisComplete)`, redundant after the early
return; it is kept implicit here.) -/
def handleScoreUpdate (st : AppState) (newScore : ℤ) (newFeedback : String)
    (isFinal : Bool) (newAttributes : Option FundabilityAttributes) : AppState :=
  if st.isAnalysisComplete then st
  else if isFinal then
    { st with
      finalScore := some newScore
      finalFeedback := newFeedback
      score := some newScore
      feedback := newFeedback
      finalAttributes :=
        match newAttributes with
        | some a => some a
        | none => st.finalAttributes
      attributes :=
        match newAttributes with
        | some a => some a
        | none => st.attributes
      isAnalysisComplete := true }
  else
    { st with
      score := some newScore
      feedback := newFeedback
      attributes :=
        match newAttributes with
        | some a => some a
        | none => st.attributes }

/-! ## Presentation Animator (`ScoreDisplay`)

The two `useEffect` animation blocks and the `requestAnimationFrame`
scheduler are embedded as an event-step semantics.  A `DisplayEvent.update`
models new props arriving (both effects re-run; the score effect first runs
its cleanup, which cancels its stored animation-frame handle).  A
`DisplayEvent.frame` models one display refresh: every pending
animation-frame callback runs with that timestamp.  The attribute effect
never stores or cancels its animation-frame handles, so its in-flight
callbacks form an uncancellable queue.
-/

/-- An in-flight score transition (closure state of `animate` in the score
effect of `ScoreDisplay`). -/
structure ScoreAnimation where
  startTime : Option ℤ
  startValue : ℤ
  targetScore : ℤ
deriving DecidableEq, Repr

/-- An in-flight attribute transition (closure state of `animateAttributes`
in the attribute effect of `ScoreDisplay`). -/
structure AttrAnimation where
  startTime : Option ℤ
  startValues : FundabilityAttributes
  targetValues : FundabilityAttributes
deriving DecidableEq, Repr

/-- The state of `ScoreDisplay`: displayed values, their tracking refs, the
cancellable score animation handle, and the uncancellable queue of pending
attribute animation callbacks. -/
structure DisplayState where
  displayScore : ℤ
  currentScore : ℤ
  scoreAnimation : Option ScoreAnimation
  displayAttributes : FundabilityAttributes
  currentAttributes : FundabilityAttributes
  attrAnimations : List AttrAnimation
deriving DecidableEq, Repr

def initialDisplayState : DisplayState :=
  { displayScore := 0
    currentScore := 0
    scoreAnimation := none
    displayAttributes := { charisma := 0, dumbness := 0, single := 0 }
    currentAttributes := { charisma := 0, dumbness := 0, single := 0 }
    attrAnimations := [] }

def ANIMATION_DURATION_MS : ℤ := 150

def easeOutQuad (t : ℚ) : ℚ := t * (2 - t)

/-- Both `useEffect` blocks of `ScoreDisplay` running on a props change
`(score, attributes, isFinalized)`.  The score effect cleanup cancels any
stored score animation frame first; the attribute effect has no cleanup. -/
def receiveUpdate (st : DisplayState) (score : Option ℤ)
    (attributes : Option FundabilityAttributes) (isFinalized : Bool) : DisplayState :=
  let st := { st with scoreAnimation := none }
  let st :=
    match score with
    | none => { st with displayScore := 0, currentScore := 0 }
    | some s =>
      if isFinalized then { st with displayScore := s, currentScore := s }
      else
        let fresh : ScoreAnimation :=
          { startTime := none, startValue := st.currentScore, targetScore := s }
        { st with scoreAnimation := some fresh }
  match attributes with
  | none => st
  | some a =>
    if isFinalized then { st with displayAttributes := a, currentAttributes := a }
    else
      let fresh : AttrAnimation :=
        { startTime := none, startValues := st.currentAttributes, targetValues := a }
      { st with attrAnimations := st.attrAnimations ++ [fresh] }

/-- One run of the score-effect `animate` callback at refresh timestamp
`timestamp`. -/
def stepScoreAnimation (st : DisplayState) (timestamp : ℤ) : DisplayState :=
  match st.scoreAnimation with
  | none => st
  | some a =>
    let startTime := a.startTime.getD timestamp
    let elapsed := timestamp - startTime
    let progress : ℚ := min 1 ((elapsed : ℚ) / (ANIMATION_DURATION_MS : ℚ))
    let easedProgress := easeOutQuad progress
    let newDisplayScore :=
      jround ((a.startValue : ℚ) + ((a.targetScore : ℚ) - (a.startValue : ℚ)) * easedProgress)
    { st with
      displayScore := newDisplayScore
      currentScore := newDisplayScore
      scoreAnimation :=
        if progress < 1 then some { a with startTime := some startTime } else none }

/-- One run of an `animateAttributes` callback at refresh timestamp
`timestamp`; returns the updated state and the re-registered callback when
the transition is still in progress. -/
def stepAttrAnimation (st : DisplayState) (a : AttrAnimation) (timestamp : ℤ) :
    DisplayState × Option AttrAnimation :=
  let startTime := a.startTime.getD timestamp
  let elapsed := timestamp - startTime
  let progress : ℚ := min 1 ((elapsed : ℚ) / (ANIMATION_DURATION_MS : ℚ))
  let e := easeOutQuad progress
  let newAttributes : FundabilityAttributes :=
    { charisma := jround ((a.startValues.charisma : ℚ) +
        ((a.targetValues.charisma : ℚ) - (a.startValues.charisma : ℚ)) * e)
      dumbness := jround ((a.startValues.dumbness : ℚ) +
        ((a.targetValues.dumbness : ℚ) - (a.startValues.dumbness : ℚ)) * e)
      single := jround ((a.startValues.single : ℚ) +
        ((a.targetValues.single : ℚ) - (a.startValues.single : ℚ)) * e) }
  ({ st with displayAttributes := newAttributes, currentAttributes := newAttributes },
    if progress < 1 then some { a with startTime := some startTime } else none)

/-- Run the pending attribute animation callbacks in registration order,
re-registering the still-running ones for the next frame. -/
def runAttrQueue : DisplayState → List AttrAnimation → ℤ → DisplayState
  | st, [], _ => st
  | st, a :: rest, ts =>
    let p := stepAttrAnimation st a ts
    let st1 :=
      match p.2 with
      | some a2 => { p.1 with attrAnimations := p.1.attrAnimations ++ [a2] }
      | none => p.1
    runAttrQueue st1 rest ts

/-- One display refresh frame at timestamp `ts`: the stored score animation
callback (if any) runs, then every pending attribute animation callback. -/
def frameStep (st : DisplayState) (ts : ℤ) : DisplayState :=
  let st1 := stepScoreAnimation st ts
  let pending := st1.attrAnimations
  runAttrQueue { st1 with attrAnimations := [] } pending ts

/-- An event seen by `ScoreDisplay`: a props update or a refresh frame. -/
inductive DisplayEvent where
  | update (score : Option ℤ) (attributes : Option FundabilityAttributes) (isFinalized : Bool)
  | frame (timestamp : ℤ)
deriving DecidableEq, Repr

def displayStep (st : DisplayState) : DisplayEvent → DisplayState
  | .update s a f => receiveUpdate st s a f
  | .frame ts => frameStep st ts

def runDisplay : DisplayState → List DisplayEvent → DisplayState
  | st, [] => st
  | st, e :: es => runDisplay (displayStep st e) es

/-! ## Session emission and invariant definitions -/

/-- The non-final emission sent while the analysis window is still open,
for stored initial/target values `i t ia ta` and progress fraction `p`. -/
def interpEmission (i t : ℤ) (ia ta : FundabilityAttributes) (p : ℚ) : Emission :=
  { score := jround (jclamp 0 100 ((i : ℚ) + ((t : ℚ) - (i : ℚ)) * p))
    feedback := getFeedbackMessage (jround (jclamp 0 100 ((i : ℚ) + ((t : ℚ) - (i : ℚ)) * p)))
    isFinal := false
    attributes := interpolateAttributes ia ta p }

/-- Well-formedness of a session state at wall-clock lower bound `tmin`:
a captured start timestamp lies in the past, and every stored score or
attribute value is in `[0,100]`. -/
def WFSession (st : SessionState) (tmin : ℤ) : Prop :=
  (∀ t, st.analysisStartTime = some t → t ≤ tmin) ∧
  (∀ s, st.initialAnimatedScore = some s → 0 ≤ s ∧ s ≤ 100) ∧
  (∀ s, st.finalAnimatedTargetScore = some s → 0 ≤ s ∧ s ≤ 100) ∧
  (∀ a, st.initialAttributes = some a → attrsInRange 0 100 a) ∧
  (∀ a, st.finalAttributes = some a → attrsInRange 0 100 a)

/-- All values of one emission lie in `[0,100]`. -/
def EmissionInRange (em : Emission) : Prop :=
  0 ≤ em.score ∧ em.score ≤ 100 ∧ attrsInRange 0 100 em.attributes

/-! ## Theorems -/

theorem jround_intCast (n : ℤ) : jround (n : ℚ) = n := by
  unfold jround
  rw [add_comm, Int.floor_add_int]
  norm_num

theorem jround_mem {a b : ℤ} {x : ℚ} (h1 : (a : ℚ) ≤ x) (h2 : x ≤ (b : ℚ)) :
    a ≤ jround x ∧ jround x ≤ b := by
  unfold jround
  constructor
  · exact Int.le_floor.mpr (by linarith)
  · have : ⌊x + 1/2⌋ < b + 1 := Int.floor_lt.mpr (by push_cast; linarith)
    omega

theorem jclamp_mem {lo hi : ℚ} (x : ℚ) (h : lo ≤ hi) :
    lo ≤ jclamp lo hi x ∧ jclamp lo hi x ≤ hi := by
  unfold jclamp
  constructor
  · exact le_max_left _ _
  · exact max_le h (min_le_left _ _)

theorem jround_jclamp_mem {a b : ℤ} {lo hi : ℚ} (ha : (a : ℚ) = lo) (hb : (b : ℚ) = hi)
    (h : lo ≤ hi) (x : ℚ) :
    a ≤ jround (jclamp lo hi x) ∧ jround (jclamp lo hi x) ≤ b := by
  subst ha; subst hb
  have := @jclamp_mem (a : ℚ) (b : ℚ) x h
  exact jround_mem this.1 this.2

/-- A value linearly interpolated between two bounded values stays in bounds
(for a progress fraction in `[0,1]`). -/
theorem lerp_mem {lo hi i t p : ℚ} (hi1 : lo ≤ i) (hi2 : i ≤ hi) (ht1 : lo ≤ t)
    (ht2 : t ≤ hi) (hp1 : 0 ≤ p) (hp2 : p ≤ 1) :
    lo ≤ i + (t - i) * p ∧ i + (t - i) * p ≤ hi := by
  constructor <;> nlinarith

/-- Rounding a linear interpolation of integer values bounded by integers
stays within the bounds. -/
theorem jround_lerp_mem {lo hi i t : ℤ} {p : ℚ} (h1 : lo ≤ i) (h2 : i ≤ hi)
    (h3 : lo ≤ t) (h4 : t ≤ hi) (hp1 : 0 ≤ p) (hp2 : p ≤ 1) :
    lo ≤ jround ((i : ℚ) + ((t : ℚ) - (i : ℚ)) * p) ∧
      jround ((i : ℚ) + ((t : ℚ) - (i : ℚ)) * p) ≤ hi := by
  have h := @lerp_mem (lo : ℚ) (hi : ℚ) (i : ℚ) (t : ℚ) p
    (by exact_mod_cast h1) (by exact_mod_cast h2) (by exact_mod_cast h3) (by exact_mod_cast h4)
    hp1 hp2
  exact jround_mem h.1 h.2

/-! ## Range lemmas for the pure functions -/

theorem calculateRawFundabilityScore_mem (msin : ℚ → ℚ) (d : FaceDetectionResult) :
    0 ≤ calculateRawFundabilityScore msin d ∧ calculateRawFundabilityScore msin d ≤ 100 := by
  simp only [calculateRawFundabilityScore]
  exact jround_jclamp_mem (a := 0) (b := 100) (by norm_num) (by norm_num) (by norm_num) _

theorem calculateAttributes_mem (msin mcos : ℚ → ℚ) (d : FaceDetectionResult) :
    attrsInRange 0 100 (calculateAttributes msin mcos d) := by
  simp only [calculateAttributes, attrsInRange]
  refine ⟨?_, ?_, ?_, ?_, ?_, ?_⟩ <;>
    first
      | exact (jround_jclamp_mem (a := 0) (b := 100) (by norm_num) (by norm_num) (by norm_num) _).1
      | exact (jround_jclamp_mem (a := 0) (b := 100) (by norm_num) (by norm_num) (by norm_num) _).2

theorem calculateDeterministicTargetScore_mem (msin : ℚ → ℚ) (initialScore : ℤ)
    (d : FaceDetectionResult) :
    15 ≤ calculateDeterministicTargetScore msin initialScore d ∧
      calculateDeterministicTargetScore msin initialScore d ≤ 90 := by
  simp only [calculateDeterministicTargetScore]
  exact jround_jclamp_mem (a := 15) (b := 90) (by norm_num) (by norm_num) (by norm_num) _

theorem calculateDeterministicAttributeTargets_mem (msin : ℚ → ℚ)
    (initialAttrs : FundabilityAttributes) (d : FaceDetectionResult) :
    (10 ≤ (calculateDeterministicAttributeTargets msin initialAttrs d).charisma ∧
      (calculateDeterministicAttributeTargets msin initialAttrs d).charisma ≤ 95) ∧
    (5 ≤ (calculateDeterministicAttributeTargets msin initialAttrs d).dumbness ∧
      (calculateDeterministicAttributeTargets msin initialAttrs d).dumbness ≤ 90) ∧
    (15 ≤ (calculateDeterministicAttributeTargets msin initialAttrs d).single ∧
      (calculateDeterministicAttributeTargets msin initialAttrs d).single ≤ 95) := by
  simp only [calculateDeterministicAttributeTargets]
  refine ⟨?_, ?_, ?_⟩
  · exact jround_jclamp_mem (a := 10) (b := 95) (by norm_num) (by norm_num) (by norm_num) _
  · exact jround_jclamp_mem (a := 5) (b := 90) (by norm_num) (by norm_num) (by norm_num) _
  · exact jround_jclamp_mem (a := 15) (b := 95) (by norm_num) (by norm_num) (by norm_num) _

theorem calculateDeterministicAttributeTargets_mem_wide (msin : ℚ → ℚ)
    (initialAttrs : FundabilityAttributes) (d : FaceDetectionResult) :
    attrsInRange 0 100 (calculateDeterministicAttributeTargets msin initialAttrs d) := by
  have h := calculateDeterministicAttributeTargets_mem msin initialAttrs d
  exact ⟨by omega, by omega, by omega, by omega, by omega, by omega⟩

theorem interpolateAttributes_mem {initial target : FundabilityAttributes} {progress : ℚ}
    (h1 : attrsInRange 0 100 initial) (h2 : attrsInRange 0 100 target)
    (hp1 : 0 ≤ progress) (hp2 : progress ≤ 1) :
    attrsInRange 0 100 (interpolateAttributes initial target progress) := by
  obtain ⟨a1, a2, a3, a4, a5, a6⟩ := h1
  obtain ⟨b1, b2, b3, b4, b5, b6⟩ := h2
  simp only [interpolateAttributes, attrsInRange]
  exact ⟨(jround_lerp_mem a1 a2 b1 b2 hp1 hp2).1, (jround_lerp_mem a1 a2 b1 b2 hp1 hp2).2,
    (jround_lerp_mem a3 a4 b3 b4 hp1 hp2).1, (jround_lerp_mem a3 a4 b3 b4 hp1 hp2).2,
    (jround_lerp_mem a5 a6 b5 b6 hp1 hp2).1, (jround_lerp_mem a5 a6 b5 b6 hp1 hp2).2⟩

/-! ## Basic session lemmas -/

theorem jclamp_intCast_of_mem {n : ℤ} (h1 : (0 : ℤ) ≤ n) (h2 : n ≤ 100) :
    jclamp 0 100 (n : ℚ) = (n : ℚ) := by
  unfold jclamp
  have q1 : (0 : ℚ) ≤ (n : ℚ) := by exact_mod_cast h1
  have q2 : (n : ℚ) ≤ 100 := by exact_mod_cast h2
  rw [min_eq_right q2, max_eq_right q1]

theorem interpolateAttributes_zero (a b : FundabilityAttributes) :
    interpolateAttributes a b 0 = a := by
  simp [interpolateAttributes, jround_intCast]

theorem sessionTick_none (msin mcos : ℚ → ℚ) (st : SessionState) (now : ℤ) :
    sessionTick msin mcos st now none = (st, none) := rfl

theorem sessionTick_finalized (msin mcos : ℚ → ℚ) (st : SessionState) (now : ℤ)
    (det : Option FaceDetectionResult) (h : st.finalScoreCalculated = true) :
    sessionTick msin mcos st now det = (st, none) := by
  cases det with
  | none => rfl
  | some d => simp [sessionTick, h]

theorem runSession_nil (msin mcos : ℚ → ℚ) (st : SessionState) :
    runSession msin mcos st [] = (st, []) := rfl

theorem runSession_cons (msin mcos : ℚ → ℚ) (st : SessionState) (now : ℤ)
    (det : Option FaceDetectionResult) (ticks : List (ℤ × Option FaceDetectionResult)) :
    runSession msin mcos st ((now, det) :: ticks) =
      ((runSession msin mcos (sessionTick msin mcos st now det).1 ticks).1,
        (sessionTick msin mcos st now det).2.toList ++
          (runSession msin mcos (sessionTick msin mcos st now det).1 ticks).2) := rfl

theorem runSession_finalized (msin mcos : ℚ → ℚ) (st : SessionState)
    (h : st.finalScoreCalculated = true) :
    ∀ ticks : List (ℤ × Option FaceDetectionResult),
      runSession msin mcos st ticks = (st, []) := by
  intro ticks
  induction ticks with
  | nil => rfl
  | cons p rest ih =>
    obtain ⟨now, det⟩ := p
    rw [runSession_cons, sessionTick_finalized msin mcos st now det h]
    simp [ih]

theorem runSession_all_none (msin mcos : ℚ → ℚ) (st : SessionState)
    (ticks : List (ℤ × Option FaceDetectionResult)) (h : ∀ p ∈ ticks, p.2 = none) :
    runSession msin mcos st ticks = (st, []) := by
  induction ticks with
  | nil => rfl
  | cons p rest ih =>
    obtain ⟨now, det⟩ := p
    have hdet : det = none := h (now, det) (List.mem_cons_self _ _)
    subst hdet
    rw [runSession_cons, sessionTick_none]
    simp [ih fun q hq => h q (List.mem_cons_of_mem _ hq)]

theorem runSession_append (msin mcos : ℚ → ℚ) (st : SessionState)
    (l1 l2 : List (ℤ × Option FaceDetectionResult)) :
    runSession msin mcos st (l1 ++ l2) =
      ((runSession msin mcos (runSession msin mcos st l1).1 l2).1,
        (runSession msin mcos st l1).2 ++
          (runSession msin mcos (runSession msin mcos st l1).1 l2).2) := by
  induction l1 generalizing st with
  | nil => simp [runSession_nil]
  | cons p rest ih =>
    obtain ⟨now, det⟩ := p
    simp only [List.cons_append, runSession_cons, ih]
    simp

theorem sessionTick_start (msin mcos : ℚ → ℚ) (i0 t0 : Option ℤ)
    (a0 b0 : Option FundabilityAttributes) (now : ℤ) (d : FaceDetectionResult) :
    sessionTick msin mcos ⟨none, false, i0, t0, a0, b0⟩ now (some d) =
      (initializedSession msin mcos now d,
        some { score := calculateRawFundabilityScore msin d
               feedback := getFeedbackMessage (calculateRawFundabilityScore msin d)
               isFinal := false
               attributes := calculateAttributes msin mcos d }) := by
  have hmem := calculateRawFundabilityScore_mem msin d
  simp only [sessionTick, initializedSession, ite_self, ANALYSIS_DURATION_MS, sub_self,
    Int.cast_zero, zero_div]
  rw [min_eq_right (by norm_num : (0:ℚ) ≤ 1)]
  simp only [mul_zero, add_zero, interpolateAttributes_zero,
    jclamp_intCast_of_mem hmem.1 hmem.2, jround_intCast]
  rw [if_neg (by norm_num : ¬ (5000:ℤ) ≤ 0)]
  simp

theorem sessionTick_running (msin mcos : ℚ → ℚ) (s0 i t : ℤ)
    (ia ta : FundabilityAttributes) (now : ℤ) (d : FaceDetectionResult) (hs0 : s0 ≠ 0)
    (hlt : now - s0 < ANALYSIS_DURATION_MS) :
    sessionTick msin mcos ⟨some s0, false, some i, some t, some ia, some ta⟩ now (some d) =
      (⟨some s0, false, some i, some t, some ia, some ta⟩,
        some (interpEmission i t ia ta (min 1 (((now - s0 : ℤ) : ℚ) / 5000)))) := by
  simp only [sessionTick, interpEmission, ANALYSIS_DURATION_MS] at *
  rw [if_neg hs0]
  rw [if_neg (by omega : ¬ (5000:ℤ) ≤ now - s0)]
  norm_num

theorem sessionTick_finalize (msin mcos : ℚ → ℚ) (s0 i t : ℤ)
    (ia ta : FundabilityAttributes) (now : ℤ) (d : FaceDetectionResult) (hs0 : s0 ≠ 0)
    (hge : ANALYSIS_DURATION_MS ≤ now - s0) :
    sessionTick msin mcos ⟨some s0, false, some i, some t, some ia, some ta⟩ now (some d) =
      (⟨some s0, true, some i, some t, some ia, some ta⟩,
        some { score := t, feedback := getFeedbackMessage t, isFinal := true,
               attributes := ta }) := by
  simp only [sessionTick, ANALYSIS_DURATION_MS] at *
  rw [if_neg hs0]
  rw [if_pos hge]
  simp

/-- No tick ever rewrites an already captured start timestamp or any stored
initial/target value. -/
theorem sessionTick_preserves (msin mcos : ℚ → ℚ) (st : SessionState) (now : ℤ)
    (det : Option FaceDetectionResult) (s0 : ℤ) (h : st.analysisStartTime = some s0) :
    (sessionTick msin mcos st now det).1.analysisStartTime = st.analysisStartTime ∧
    (sessionTick msin mcos st now det).1.initialAnimatedScore = st.initialAnimatedScore ∧
    (sessionTick msin mcos st now det).1.finalAnimatedTargetScore =
      st.finalAnimatedTargetScore ∧
    (sessionTick msin mcos st now det).1.initialAttributes = st.initialAttributes ∧
    (sessionTick msin mcos st now det).1.finalAttributes = st.finalAttributes := by
  obtain ⟨ast, fc, o1, o2, o3, o4⟩ := st
  simp only [SessionState.analysisStartTime] at h
  subst h
  cases det with
  | none => simp [sessionTick_none]
  | some d =>
    cases fc with
    | true =>
      rw [sessionTick_finalized msin mcos _ now (some d) rfl]
      exact ⟨rfl, rfl, rfl, rfl, rfl⟩
    | false =>
      simp only [sessionTick]
      split_ifs <;> try simp
      all_goals (split <;> simp)

/-! ## Range invariant for session traces -/

theorem WFSession_mono {st : SessionState} {t1 t2 : ℤ} (h : WFSession st t1)
    (hle : t1 ≤ t2) : WFSession st t2 := by
  obtain ⟨h1, h2, h3, h4, h5⟩ := h
  exact ⟨fun t ht => le_trans (h1 t ht) hle, h2, h3, h4, h5⟩

theorem WFSession_initial (tmin : ℤ) : WFSession initialSessionState tmin := by
  refine ⟨?_, ?_, ?_, ?_, ?_⟩ <;> intro x hx <;> simp [initialSessionState] at hx

theorem WFSession_initialized (msin mcos : ℚ → ℚ) (now : ℤ) (d : FaceDetectionResult) :
    WFSession (initializedSession msin mcos now d) now := by
  refine ⟨?_, ?_, ?_, ?_, ?_⟩ <;> intro x hx <;>
    simp only [initializedSession, Option.some.injEq] at hx <;> subst hx
  · exact le_refl now
  · exact calculateRawFundabilityScore_mem msin d
  · have := calculateDeterministicTargetScore_mem msin (calculateRawFundabilityScore msin d) d
    constructor <;> omega
  · exact calculateAttributes_mem msin mcos d
  · exact calculateDeterministicAttributeTargets_mem_wide msin (calculateAttributes msin mcos d) d

theorem progress_mem {e dur : ℤ} (he : 0 ≤ e) (hdur : 0 < dur) :
    0 ≤ min 1 ((e : ℚ) / (dur : ℚ)) ∧ min 1 ((e : ℚ) / (dur : ℚ)) ≤ 1 := by
  constructor
  · apply le_min (by norm_num)
    apply div_nonneg (by exact_mod_cast he) (by exact_mod_cast le_of_lt hdur)
  · exact min_le_left _ _

/-- One tick from a well-formed state in forward time keeps the state
well-formed and only emits values in `[0,100]`. -/
theorem sessionTick_range (msin mcos : ℚ → ℚ) (st : SessionState) (tmin now : ℤ)
    (det : Option FaceDetectionResult) (hwf : WFSession st tmin) (hnow : tmin ≤ now) :
    WFSession (sessionTick msin mcos st now det).1 now ∧
      ∀ em ∈ (sessionTick msin mcos st now det).2, EmissionInRange em := by
  cases det with
  | none =>
    rw [sessionTick_none]
    exact ⟨WFSession_mono hwf hnow, by simp⟩
  | some d =>
    obtain ⟨ast, fc, o1, o2, o3, o4⟩ := st
    cases fc with
    | true =>
      rw [sessionTick_finalized msin mcos _ now (some d) rfl]
      exact ⟨WFSession_mono hwf hnow, by simp⟩
    | false =>
      cases ast with
      | none =>
        rw [sessionTick_start]
        refine ⟨WFSession_initialized msin mcos now d, ?_⟩
        intro em hem
        simp only [Option.mem_def, Option.some.injEq] at hem
        subst hem
        exact ⟨(calculateRawFundabilityScore_mem msin d).1,
          (calculateRawFundabilityScore_mem msin d).2,
          calculateAttributes_mem msin mcos d⟩
      | some s0 =>
        obtain ⟨hw1, hw2, hw3, hw4, hw5⟩ := hwf
        have hs0 : s0 ≤ now := le_trans (hw1 s0 rfl) hnow
        simp only [sessionTick]
        rw [if_neg (by simp : ¬ (false = true))]
        have hbase : ∀ b : ℤ, b = (if s0 = 0 then now else s0) → 0 ≤ now - b := by
          intro b hb
          by_cases h0 : s0 = 0 <;> simp [h0] at hb <;> omega
        by_cases hfin : ANALYSIS_DURATION_MS ≤ now - (if s0 = 0 then now else s0)
        · rw [if_pos hfin]
          refine ⟨⟨fun t ht => ?_, hw2, hw3, hw4, hw5⟩, ?_⟩
          · simp only [Option.some.injEq] at ht; omega
          · intro em hem
            simp only [Option.mem_def, Option.some.injEq] at hem
            subst hem
            refine ⟨?_, ?_, ?_⟩
            · cases o2 with
              | none => exact (calculateRawFundabilityScore_mem msin d).1
              | some v => exact (hw3 v rfl).1
            · cases o2 with
              | none => exact (calculateRawFundabilityScore_mem msin d).2
              | some v => exact (hw3 v rfl).2
            · cases o4 with
              | none => exact calculateAttributes_mem msin mcos d
              | some v => exact hw5 v rfl
        · rw [if_neg hfin]
          have hwf' : WFSession (⟨some s0, false, o1, o2, o3, o4⟩ : SessionState) now :=
            ⟨fun t ht => by simp only [Option.some.injEq] at ht; omega, hw2, hw3, hw4, hw5⟩
          cases o1 with
          | none => exact ⟨hwf', by simp⟩
          | some i =>
            cases o2 with
            | none => exact ⟨hwf', by simp⟩
            | some t =>
              cases o3 with
              | none => exact ⟨hwf', by simp⟩
              | some ia =>
                cases o4 with
                | none => exact ⟨hwf', by simp⟩
                | some ta =>
                  refine ⟨hwf', ?_⟩
                  intro em hem
                  simp only [Option.mem_def, Option.some.injEq] at hem
                  subst hem
                  have hp := @progress_mem (now - (if s0 = 0 then now else s0))
                    ANALYSIS_DURATION_MS (hbase _ rfl)
                    (by norm_num [ANALYSIS_DURATION_MS])
                  refine ⟨?_, ?_, ?_⟩
                  · exact (jround_jclamp_mem (a := 0) (b := 100) (by norm_num) (by norm_num)
                      (by norm_num) _).1
                  · exact (jround_jclamp_mem (a := 0) (b := 100) (by norm_num) (by norm_num)
                      (by norm_num) _).2
                  · exact interpolateAttributes_mem (hw4 ia rfl) (hw5 ta rfl) hp.1 hp.2

/-- Every emission of a session run whose poll times are non-decreasing
(starting from a time bounding the initial state) has all values in
`[0,100]`. -/
theorem runSession_range (msin mcos : ℚ → ℚ) :
    ∀ (ticks : List (ℤ × Option FaceDetectionResult)) (st : SessionState) (tmin : ℤ),
      WFSession st tmin → List.Chain (· ≤ ·) tmin (ticks.map Prod.fst) →
      ∀ em ∈ (runSession msin mcos st ticks).2, EmissionInRange em := by
  intro ticks
  induction ticks with
  | nil => intro st tmin _ _ em hem; simp [runSession_nil] at hem
  | cons p rest ih =>
    intro st tmin hwf hchain em hem
    obtain ⟨now, det⟩ := p
    simp only [List.map_cons] at hchain
    cases hchain with
    | cons hle hch =>
      rw [runSession_cons] at hem
      simp only [List.mem_append] at hem
      have htick := sessionTick_range msin mcos st tmin now det hwf hle
      cases hem with
      | inl h =>
        apply htick.2
        simpa using h
      | inr h =>
        exact ih (sessionTick msin mcos st now det).1 now htick.1 hch em h

/-- While the window is open (all tick times strictly before the deadline)
and a face is visible on every tick, the session state is unchanged and
every emission is non-final. -/
theorem runSession_running_nonfinal (msin mcos : ℚ → ℚ) (s0 i t : ℤ)
    (ia ta : FundabilityAttributes) (hs0 : s0 ≠ 0) :
    ∀ ticks : List (ℤ × Option FaceDetectionResult),
      (∀ p ∈ ticks, (p.2).isSome = true ∧ p.1 - s0 < ANALYSIS_DURATION_MS) →
      (runSession msin mcos ⟨some s0, false, some i, some t, some ia, some ta⟩ ticks).1 =
        ⟨some s0, false, some i, some t, some ia, some ta⟩ ∧
      ∀ em ∈ (runSession msin mcos
          ⟨some s0, false, some i, some t, some ia, some ta⟩ ticks).2,
        em.isFinal = false := by
  intro ticks
  induction ticks with
  | nil => intro _; exact ⟨rfl, by simp [runSession_nil]⟩
  | cons p rest ih =>
    intro h
    obtain ⟨now, det⟩ := p
    have hp := h (now, det) (List.mem_cons_self _ _)
    obtain ⟨d, hd⟩ := Option.isSome_iff_exists.mp hp.1
    subst hd
    rw [runSession_cons, sessionTick_running msin mcos s0 i t ia ta now d hs0 hp.2]
    have hrest := ih fun q hq => h q (List.mem_cons_of_mem _ hq)
    refine ⟨hrest.1, ?_⟩
    intro em hem
    simp only [List.mem_append, Option.toList_some, List.mem_singleton] at hem
    cases hem with
    | inl h1 =>
      simp only [List.mem_singleton] at h1
      subst h1
      rfl
    | inr h2 => exact hrest.2 em h2

/-! ## Claim theorems -/

/-- C4: for every snapshot with confidence and expression probabilities in
`[0,1]`, `calculateRawFundabilityScore` equals
`round (clamp (confidence*50 + happy*30 + neutral*15 + surprised*10
- sad*20 - angry*25 + sin (confidence*100 + happy*50 + neutral*25) * 5, 0, 100))`;
in particular, for confidence `0.9`, happy `0.8`, neutral `0.1` and the other
expressions `0`, it equals exactly that constant. -/
theorem C4_rawScore_formula (msin : ℚ → ℚ) :
    (∀ d : FaceDetectionResult, ValidSnap d →
      calculateRawFundabilityScore msin d =
        jround (jclamp 0 100
          (d.detection.score * 50 + d.expressions.happy * 30 + d.expressions.neutral * 15 +
            d.expressions.surprised * 10 - d.expressions.sad * 20 - d.expressions.angry * 25 +
            msin (d.detection.score * 100 + d.expressions.happy * 50 +
              d.expressions.neutral * 25) * 5))) ∧
    calculateRawFundabilityScore msin ⟨⟨9/10⟩, ⟨4/5, 1/10, 0, 0, 0, 0⟩⟩ =
      jround (jclamp 0 100
        (9/10 * 50 + 4/5 * 30 + 1/10 * 15 + 0 * 10 - 0 * 20 - 0 * 25 +
          msin (9/10 * 100 + 4/5 * 50 + 1/10 * 25) * 5)) := by
  constructor
  · intro d _
    simp only [calculateRawFundabilityScore]
    exact congrArg (fun x => jround (jclamp 0 100 x)) (by ring)
  · simp only [calculateRawFundabilityScore]
    exact congrArg (fun x => jround (jclamp 0 100 x)) (by norm_num)

theorem C4_witness :
    ValidSnap ⟨⟨9/10⟩, ⟨4/5, 1/10, 0, 0, 0, 0⟩⟩ ∧
    calculateRawFundabilityScore (fun _ => 0) ⟨⟨9/10⟩, ⟨4/5, 1/10, 0, 0, 0, 0⟩⟩ =
      jround (jclamp 0 100
        ((9/10 : ℚ) * 50 + (4/5 : ℚ) * 30 + (1/10 : ℚ) * 15 + 0 * 10 - 0 * 20 - 0 * 25 +
          (fun _ => (0 : ℚ)) ((9/10 : ℚ) * 100 + (4/5 : ℚ) * 50 + (1/10 : ℚ) * 25) * 5)) :=
  ⟨by norm_num [ValidSnap],
    (C4_rawScore_formula (fun _ => 0)).1 ⟨⟨9/10⟩, ⟨4/5, 1/10, 0, 0, 0, 0⟩⟩
      (by norm_num [ValidSnap])⟩

/-- C6: for every initial score and snapshot, the projected target score
lies in `[15,90]`, and the projected target attributes lie in the
per-attribute ranges charisma `[10,95]`, dumbness `[5,90]`, single
`[15,95]`. -/
theorem C6_target_clamps (msin : ℚ → ℚ) (initialScore : ℤ)
    (initialAttrs : FundabilityAttributes) (d : FaceDetectionResult) :
    (15 ≤ calculateDeterministicTargetScore msin initialScore d ∧
      calculateDeterministicTargetScore msin initialScore d ≤ 90) ∧
    (10 ≤ (calculateDeterministicAttributeTargets msin initialAttrs d).charisma ∧
      (calculateDeterministicAttributeTargets msin initialAttrs d).charisma ≤ 95) ∧
    (5 ≤ (calculateDeterministicAttributeTargets msin initialAttrs d).dumbness ∧
      (calculateDeterministicAttributeTargets msin initialAttrs d).dumbness ≤ 90) ∧
    (15 ≤ (calculateDeterministicAttributeTargets msin initialAttrs d).single ∧
      (calculateDeterministicAttributeTargets msin initialAttrs d).single ≤ 95) :=
  ⟨calculateDeterministicTargetScore_mem msin initialScore d,
    calculateDeterministicAttributeTargets_mem msin initialAttrs d⟩

/-- C9: for every integer score in `[0,100]`, the feedback text is the
message of the first of the six contiguous bands whose range contains the
score, and the "Analyzing..." default is never returned. -/
theorem C9_feedback_bands (s : ℤ) (h1 : 0 ≤ s) (h2 : s ≤ 100) :
    (∃ k : Fin feedbackMessages.length,
      ((feedbackMessages.get k).minScore ≤ s ∧ s ≤ (feedbackMessages.get k).maxScore) ∧
      (∀ j : Fin feedbackMessages.length, j < k →
        ¬((feedbackMessages.get j).minScore ≤ s ∧ s ≤ (feedbackMessages.get j).maxScore)) ∧
      getFeedbackMessage s = (feedbackMessages.get k).message) ∧
    getFeedbackMessage s ≠ "Analyzing..." := by
  interval_cases s <;> decide

theorem C9_witness :
    (0 : ℤ) ≤ 50 ∧ (50 : ℤ) ≤ 100 ∧
    ((∃ k : Fin feedbackMessages.length,
      ((feedbackMessages.get k).minScore ≤ 50 ∧ 50 ≤ (feedbackMessages.get k).maxScore) ∧
      (∀ j : Fin feedbackMessages.length, j < k →
        ¬((feedbackMessages.get j).minScore ≤ 50 ∧ 50 ≤ (feedbackMessages.get j).maxScore)) ∧
      getFeedbackMessage 50 = (feedbackMessages.get k).message) ∧
    getFeedbackMessage 50 ≠ "Analyzing...") :=
  ⟨by norm_num, by norm_num, C9_feedback_bands 50 (by norm_num) (by norm_num)⟩

/-- C10: a final update with the attributes argument omitted still marks the
analysis complete and locks score and feedback, while the stored current and
final attribute state is left unchanged. -/
theorem C10_final_update_without_attributes (st : AppState)
    (h : st.isAnalysisComplete = false) (s : ℤ) (fb : String) :
    (handleScoreUpdate st s fb true none).isAnalysisComplete = true ∧
    (handleScoreUpdate st s fb true none).score = some s ∧
    (handleScoreUpdate st s fb true none).feedback = fb ∧
    (handleScoreUpdate st s fb true none).finalScore = some s ∧
    (handleScoreUpdate st s fb true none).finalFeedback = fb ∧
    (handleScoreUpdate st s fb true none).attributes = st.attributes ∧
    (handleScoreUpdate st s fb true none).finalAttributes = st.finalAttributes := by
  refine ⟨?_, ?_, ?_, ?_, ?_, ?_, ?_⟩ <;> simp [handleScoreUpdate, h]

theorem C10_witness :
    (⟨some 10, "msg", none, "", false, some ⟨1, 2, 3⟩, none⟩ : AppState).isAnalysisComplete =
      false ∧
    ((handleScoreUpdate ⟨some 10, "msg", none, "", false, some ⟨1, 2, 3⟩, none⟩ 42 "fb"
        true none).isAnalysisComplete = true ∧
    (handleScoreUpdate ⟨some 10, "msg", none, "", false, some ⟨1, 2, 3⟩, none⟩ 42 "fb"
        true none).score = some 42 ∧
    (handleScoreUpdate ⟨some 10, "msg", none, "", false, some ⟨1, 2, 3⟩, none⟩ 42 "fb"
        true none).feedback = "fb" ∧
    (handleScoreUpdate ⟨some 10, "msg", none, "", false, some ⟨1, 2, 3⟩, none⟩ 42 "fb"
        true none).finalScore = some 42 ∧
    (handleScoreUpdate ⟨some 10, "msg", none, "", false, some ⟨1, 2, 3⟩, none⟩ 42 "fb"
        true none).finalFeedback = "fb" ∧
    (handleScoreUpdate ⟨some 10, "msg", none, "", false, some ⟨1, 2, 3⟩, none⟩ 42 "fb"
        true none).attributes =
      (⟨some 10, "msg", none, "", false, some ⟨1, 2, 3⟩, none⟩ : AppState).attributes ∧
    (handleScoreUpdate ⟨some 10, "msg", none, "", false, some ⟨1, 2, 3⟩, none⟩ 42 "fb"
        true none).finalAttributes =
      (⟨some 10, "msg", none, "", false, some ⟨1, 2, 3⟩, none⟩ : AppState).finalAttributes) :=
  ⟨rfl, C10_final_update_without_attributes
    ⟨some 10, "msg", none, "", false, some ⟨1, 2, 3⟩, none⟩ rfl 42 "fb"⟩

/-- C3: once the session is finalized, any further tick (even one carrying a
detection) changes nothing and emits nothing, and a consumer whose analysis
is complete ignores every further update. -/
theorem C3_finalized_immutable (msin mcos : ℚ → ℚ) (st : SessionState)
    (hst : st.finalScoreCalculated = true) (now : ℤ) (det : Option FaceDetectionResult)
    (a : AppState) (ha : a.isAnalysisComplete = true) (s : ℤ) (fb : String)
    (isFinal : Bool) (oa : Option FundabilityAttributes) :
    sessionTick msin mcos st now det = (st, none) ∧ handleScoreUpdate a s fb isFinal oa = a :=
  ⟨sessionTick_finalized msin mcos st now det hst, by simp [handleScoreUpdate, ha]⟩

theorem C3_witness :
    (⟨some 1, true, some 70, some 76, none, none⟩ : SessionState).finalScoreCalculated = true ∧
    (⟨some 50, "m", some 50, "m", true, none, none⟩ : AppState).isAnalysisComplete = true ∧
    (sessionTick (fun _ => 0) (fun _ => 0) ⟨some 1, true, some 70, some 76, none, none⟩ 6000
        (some ⟨⟨9/10⟩, ⟨4/5, 1/10, 0, 0, 0, 0⟩⟩) =
      (⟨some 1, true, some 70, some 76, none, none⟩, none) ∧
    handleScoreUpdate ⟨some 50, "m", some 50, "m", true, none, none⟩ 99 "x" true
        (some ⟨1, 1, 1⟩) =
      ⟨some 50, "m", some 50, "m", true, none, none⟩) :=
  ⟨rfl, rfl,
    C3_finalized_immutable (fun _ => 0) (fun _ => 0) ⟨some 1, true, some 70, some 76, none, none⟩
      rfl 6000 (some ⟨⟨9/10⟩, ⟨4/5, 1/10, 0, 0, 0, 0⟩⟩)
      ⟨some 50, "m", some 50, "m", true, none, none⟩ rfl 99 "x" true (some ⟨1, 1, 1⟩)⟩

/-- C8: a poll tick with zero detections (or a failed inference, modelled as
`none`) performs no state transition and emits nothing; in particular, a
run of only such ticks leaves the session in its starting state with the
consumer callback never called. -/
theorem C8_empty_ticks_no_effect (msin mcos : ℚ → ℚ) (st : SessionState)
    (ticks : List (ℤ × Option FaceDetectionResult)) (h : ∀ p ∈ ticks, p.2 = none) :
    runSession msin mcos st ticks = (st, []) :=
  runSession_all_none msin mcos st ticks h

theorem C8_witness :
    (∀ p ∈ ([(0, none), (100, none), (2500, none), (5000, none), (5100, none)] :
        List (ℤ × Option FaceDetectionResult)), p.2 = none) ∧
    runSession (fun _ => 0) (fun _ => 0) initialSessionState
        [(0, none), (100, none), (2500, none), (5000, none), (5100, none)] =
      (initialSessionState, []) :=
  ⟨by simp,
    C8_empty_ticks_no_effect (fun _ => 0) (fun _ => 0) initialSessionState
      [(0, none), (100, none), (2500, none), (5000, none), (5100, none)] (by simp)⟩

/-- C2: the initial score, target score, initial attributes and target
attributes are computed exactly once, on the first tick carrying a usable
detection (conjunct 1); no later tick rewrites them (conjunct 2); and every
subsequent non-final emission interpolates from that fixed pair (conjunct 3). -/
theorem C2_target_computed_once (msin mcos : ℚ → ℚ) :
    (∀ (i0 t0 : Option ℤ) (a0 b0 : Option FundabilityAttributes) (now : ℤ)
        (d : FaceDetectionResult),
      (sessionTick msin mcos ⟨none, false, i0, t0, a0, b0⟩ now (some d)).1 =
        ⟨some now, false,
          some (calculateRawFundabilityScore msin d),
          some (calculateDeterministicTargetScore msin
            (calculateRawFundabilityScore msin d) d),
          some (calculateAttributes msin mcos d),
          some (calculateDeterministicAttributeTargets msin
            (calculateAttributes msin mcos d) d)⟩) ∧
    (∀ (st : SessionState) (now : ℤ) (det : Option FaceDetectionResult) (s0 : ℤ),
      st.analysisStartTime = some s0 →
      (sessionTick msin mcos st now det).1.analysisStartTime = st.analysisStartTime ∧
      (sessionTick msin mcos st now det).1.initialAnimatedScore = st.initialAnimatedScore ∧
      (sessionTick msin mcos st now det).1.finalAnimatedTargetScore =
        st.finalAnimatedTargetScore ∧
      (sessionTick msin mcos st now det).1.initialAttributes = st.initialAttributes ∧
      (sessionTick msin mcos st now det).1.finalAttributes = st.finalAttributes) ∧
    (∀ (s0 i t : ℤ) (ia ta : FundabilityAttributes) (now : ℤ) (d : FaceDetectionResult),
      s0 ≠ 0 → now - s0 < ANALYSIS_DURATION_MS →
      sessionTick msin mcos ⟨some s0, false, some i, some t, some ia, some ta⟩ now (some d) =
        (⟨some s0, false, some i, some t, some ia, some ta⟩,
          some (interpEmission i t ia ta (min 1 (((now - s0 : ℤ) : ℚ) / 5000))))) := by
  refine ⟨?_, ?_, ?_⟩
  · intro i0 t0 a0 b0 now d
    rw [sessionTick_start msin mcos i0 t0 a0 b0 now d]
    rfl
  · intro st now det s0 h
    exact sessionTick_preserves msin mcos st now det s0 h
  · intro s0 i t ia ta now d h1 h2
    exact sessionTick_running msin mcos s0 i t ia ta now d h1 h2

theorem C2_witness :
    ((sessionTick (fun _ => 0) (fun _ => 0) ⟨none, false, none, none, none, none⟩ 1000
        (some ⟨⟨9/10⟩, ⟨4/5, 1/10, 0, 0, 0, 0⟩⟩)).1 =
      ⟨some 1000, false,
        some (calculateRawFundabilityScore (fun _ => 0) ⟨⟨9/10⟩, ⟨4/5, 1/10, 0, 0, 0, 0⟩⟩),
        some (calculateDeterministicTargetScore (fun _ => 0)
          (calculateRawFundabilityScore (fun _ => 0) ⟨⟨9/10⟩, ⟨4/5, 1/10, 0, 0, 0, 0⟩⟩)
          ⟨⟨9/10⟩, ⟨4/5, 1/10, 0, 0, 0, 0⟩⟩),
        some (calculateAttributes (fun _ => 0) (fun _ => 0) ⟨⟨9/10⟩, ⟨4/5, 1/10, 0, 0, 0, 0⟩⟩),
        some (calculateDeterministicAttributeTargets (fun _ => 0)
          (calculateAttributes (fun _ => 0) (fun _ => 0) ⟨⟨9/10⟩, ⟨4/5, 1/10, 0, 0, 0, 0⟩⟩)
          ⟨⟨9/10⟩, ⟨4/5, 1/10, 0, 0, 0, 0⟩⟩)⟩) ∧
    ((⟨some 5, false, some 1, some 2, some ⟨1, 1, 1⟩, some ⟨2, 2, 2⟩⟩ :
        SessionState).analysisStartTime = some 5) ∧
    ((sessionTick (fun _ => 0) (fun _ => 0)
        ⟨some 5, false, some 1, some 2, some ⟨1, 1, 1⟩, some ⟨2, 2, 2⟩⟩ 200
        none).1.initialAnimatedScore =
      (⟨some 5, false, some 1, some 2, some ⟨1, 1, 1⟩, some ⟨2, 2, 2⟩⟩ :
        SessionState).initialAnimatedScore) ∧
    ((1000 : ℤ) ≠ 0) ∧ ((1100 : ℤ) - 1000 < ANALYSIS_DURATION_MS) ∧
    (sessionTick (fun _ => 0) (fun _ => 0)
        ⟨some 1000, false, some 70, some 76, some ⟨1, 1, 1⟩, some ⟨2, 2, 2⟩⟩ 1100
        (some ⟨⟨9/10⟩, ⟨4/5, 1/10, 0, 0, 0, 0⟩⟩) =
      (⟨some 1000, false, some 70, some 76, some ⟨1, 1, 1⟩, some ⟨2, 2, 2⟩⟩,
        some (interpEmission 70 76 ⟨1, 1, 1⟩ ⟨2, 2, 2⟩
          (min 1 (((1100 - 1000 : ℤ) : ℚ) / 5000))))) :=
  ⟨(C2_target_computed_once (fun _ => 0) (fun _ => 0)).1 none none none none 1000
      ⟨⟨9/10⟩, ⟨4/5, 1/10, 0, 0, 0, 0⟩⟩,
    rfl,
    ((C2_target_computed_once (fun _ => 0) (fun _ => 0)).2.1
      ⟨some 5, false, some 1, some 2, some ⟨1, 1, 1⟩, some ⟨2, 2, 2⟩⟩ 200 none 5 rfl).2.1,
    by norm_num, by norm_num [ANALYSIS_DURATION_MS],
    (C2_target_computed_once (fun _ => 0) (fun _ => 0)).2.2 1000 70 76 ⟨1, 1, 1⟩ ⟨2, 2, 2⟩
      1100 ⟨⟨9/10⟩, ⟨4/5, 1/10, 0, 0, 0, 0⟩⟩ (by norm_num)
      (by norm_num [ANALYSIS_DURATION_MS])⟩

/-- C5: for snapshots whose confidence and expression probabilities lie in
`[0,1]` (and the bounded trigonometric perturbations of the source), the raw
score and raw attributes are integers in `[0,100]`, and every value emitted
through the consumer callback during a session run with non-decreasing poll
times lies in `[0,100]`. -/
theorem C5_emissions_in_range (msin mcos : ℚ → ℚ) (hs : ∀ x, |msin x| ≤ 1)
    (hc : ∀ x, |mcos x| ≤ 1) :
    (∀ d : FaceDetectionResult, ValidSnap d →
      (0 ≤ calculateRawFundabilityScore msin d ∧
        calculateRawFundabilityScore msin d ≤ 100) ∧
      attrsInRange 0 100 (calculateAttributes msin mcos d)) ∧
    (∀ ticks : List (ℤ × Option FaceDetectionResult),
      (∀ p ∈ ticks, ∀ d, p.2 = some d → ValidSnap d) →
      List.Chain' (· ≤ ·) (ticks.map Prod.fst) →
      ∀ em ∈ (runSession msin mcos initialSessionState ticks).2, EmissionInRange em) := by
  refine ⟨fun d _ =>
    ⟨calculateRawFundabilityScore_mem msin d, calculateAttributes_mem msin mcos d⟩, ?_⟩
  intro ticks hvalid hchain em hem
  cases ticks with
  | nil => simp [runSession_nil] at hem
  | cons p rest =>
    refine runSession_range msin mcos (p :: rest) initialSessionState p.1
      (WFSession_initial p.1) ?_ em hem
    simp only [List.map_cons]
    exact List.Chain.cons (le_refl p.1) hchain

theorem C5_witness :
    ((0 ≤ calculateRawFundabilityScore (fun _ => 0) ⟨⟨9/10⟩, ⟨4/5, 1/10, 0, 0, 0, 0⟩⟩ ∧
        calculateRawFundabilityScore (fun _ => 0) ⟨⟨9/10⟩, ⟨4/5, 1/10, 0, 0, 0, 0⟩⟩ ≤ 100) ∧
      attrsInRange 0 100
        (calculateAttributes (fun _ => 0) (fun _ => 0) ⟨⟨9/10⟩, ⟨4/5, 1/10, 0, 0, 0, 0⟩⟩)) ∧
    (∀ em ∈ (runSession (fun _ => 0) (fun _ => 0) initialSessionState
        [(1000, some ⟨⟨9/10⟩, ⟨4/5, 1/10, 0, 0, 0, 0⟩⟩),
         (1100, some ⟨⟨9/10⟩, ⟨4/5, 1/10, 0, 0, 0, 0⟩⟩)]).2, EmissionInRange em) := by
  have hz : ∀ x : ℚ, |(fun _ => (0 : ℚ)) x| ≤ 1 := by intro x; norm_num
  have hv : ValidSnap ⟨⟨9/10⟩, ⟨4/5, 1/10, 0, 0, 0, 0⟩⟩ := by norm_num [ValidSnap]
  refine ⟨(C5_emissions_in_range (fun _ => 0) (fun _ => 0) hz hz).1
    ⟨⟨9/10⟩, ⟨4/5, 1/10, 0, 0, 0, 0⟩⟩ hv, ?_⟩
  refine (C5_emissions_in_range (fun _ => 0) (fun _ => 0) hz hz).2 _ ?_ ?_
  · intro p hp d hd
    rcases List.mem_cons.mp hp with h | h
    · subst h
      injection hd with h3
      subst h3
      exact hv
    · rcases List.mem_singleton.mp h with h2
      subst h2
      injection hd with h3
      subst h3
      exact hv
  · simp only [List.map_cons, List.map_nil, List.chain'_cons, List.chain'_singleton,
      and_true]
    norm_num

/-- From a running session with the window still open through `mid` and a
tick at deadline-or-later time `T`, the run finalizes exactly at `T`,
emitting the stored target values, and emits nothing afterwards. -/
theorem runSession_window (msin mcos : ℚ → ℚ) (s0 i t : ℤ)
    (ia ta : FundabilityAttributes) (hs0 : s0 ≠ 0)
    (mid post : List (ℤ × Option FaceDetectionResult))
    (hmid : ∀ p ∈ mid, (p.2).isSome = true ∧ p.1 - s0 < ANALYSIS_DURATION_MS)
    (T : ℤ) (dT : FaceDetectionResult) (hT : ANALYSIS_DURATION_MS ≤ T - s0) :
    runSession msin mcos ⟨some s0, false, some i, some t, some ia, some ta⟩
        (mid ++ (T, some dT) :: post) =
      (⟨some s0, true, some i, some t, some ia, some ta⟩,
        (runSession msin mcos ⟨some s0, false, some i, some t, some ia, some ta⟩ mid).2 ++
          [{ score := t, feedback := getFeedbackMessage t, isFinal := true,
             attributes := ta }]) := by
  rw [runSession_append]
  have hm := runSession_running_nonfinal msin mcos s0 i t ia ta hs0 mid hmid
  rw [hm.1, runSession_cons, sessionTick_finalize msin mcos s0 i t ia ta T dT hs0 hT]
  rw [runSession_finalized msin mcos _ rfl post]
  simp

/-- C1: with a first usable detection at a positive time `t0` and detections
on every following tick, the session emits non-final values while elapsed
time is below the 5000 ms window, then on the first tick at or past the
deadline transitions to its finalized state and emits the initially computed
target score and target attributes with `isFinal = true` exactly once —
nothing is emitted afterwards. -/
theorem C1_finalizes_once (msin mcos : ℚ → ℚ) (t0 : ℤ) (ht0 : 0 < t0)
    (d0 dT : FaceDetectionResult) (mid post : List (ℤ × Option FaceDetectionResult))
    (hmid : ∀ p ∈ mid, (p.2).isSome = true ∧ p.1 - t0 < ANALYSIS_DURATION_MS)
    (T : ℤ) (hT : ANALYSIS_DURATION_MS ≤ T - t0) :
    ∃ ems : List Emission,
      runSession msin mcos initialSessionState
          ((t0, some d0) :: (mid ++ (T, some dT) :: post)) =
        (⟨some t0, true,
            some (calculateRawFundabilityScore msin d0),
            some (calculateDeterministicTargetScore msin
              (calculateRawFundabilityScore msin d0) d0),
            some (calculateAttributes msin mcos d0),
            some (calculateDeterministicAttributeTargets msin
              (calculateAttributes msin mcos d0) d0)⟩,
          ems ++ [{ score := calculateDeterministicTargetScore msin
                      (calculateRawFundabilityScore msin d0) d0
                    feedback := getFeedbackMessage (calculateDeterministicTargetScore msin
                      (calculateRawFundabilityScore msin d0) d0)
                    isFinal := true
                    attributes := calculateDeterministicAttributeTargets msin
                      (calculateAttributes msin mcos d0) d0 }]) ∧
      ∀ em ∈ ems, em.isFinal = false := by
  have hs0 : t0 ≠ 0 := by omega
  have h0 : sessionTick msin mcos initialSessionState t0 (some d0) =
      (initializedSession msin mcos t0 d0,
        some { score := calculateRawFundabilityScore msin d0
               feedback := getFeedbackMessage (calculateRawFundabilityScore msin d0)
               isFinal := false
               attributes := calculateAttributes msin mcos d0 }) :=
    sessionTick_start msin mcos none none none none t0 d0
  have h1 : initializedSession msin mcos t0 d0 =
      ⟨some t0, false,
        some (calculateRawFundabilityScore msin d0),
        some (calculateDeterministicTargetScore msin
          (calculateRawFundabilityScore msin d0) d0),
        some (calculateAttributes msin mcos d0),
        some (calculateDeterministicAttributeTargets msin
          (calculateAttributes msin mcos d0) d0)⟩ := rfl
  refine ⟨{ score := calculateRawFundabilityScore msin d0
            feedback := getFeedbackMessage (calculateRawFundabilityScore msin d0)
            isFinal := false
            attributes := calculateAttributes msin mcos d0 } ::
      (runSession msin mcos
        ⟨some t0, false,
          some (calculateRawFundabilityScore msin d0),
          some (calculateDeterministicTargetScore msin
            (calculateRawFundabilityScore msin d0) d0),
          some (calculateAttributes msin mcos d0),
          some (calculateDeterministicAttributeTargets msin
            (calculateAttributes msin mcos d0) d0)⟩ mid).2, ?_, ?_⟩
  · rw [runSession_cons, h0, h1]
    dsimp only
    rw [runSession_window msin mcos t0 _ _ _ _ hs0 mid post hmid T dT hT]
    simp
  · intro em hem
    rcases List.mem_cons.mp hem with h | h
    · subst h; rfl
    · exact (runSession_running_nonfinal msin mcos t0 _ _ _ _ hs0 mid hmid).2 em h

theorem C1_witness :
    (0 : ℤ) < 1000 ∧
    (∀ p ∈ ([(1100, some ⟨⟨9/10⟩, ⟨4/5, 1/10, 0, 0, 0, 0⟩⟩)] :
        List (ℤ × Option FaceDetectionResult)),
      (p.2).isSome = true ∧ p.1 - 1000 < ANALYSIS_DURATION_MS) ∧
    ANALYSIS_DURATION_MS ≤ (6000 : ℤ) - 1000 ∧
    (∃ ems : List Emission,
      runSession (fun _ => 0) (fun _ => 0) initialSessionState
          ((1000, some ⟨⟨9/10⟩, ⟨4/5, 1/10, 0, 0, 0, 0⟩⟩) ::
            ([(1100, some ⟨⟨9/10⟩, ⟨4/5, 1/10, 0, 0, 0, 0⟩⟩)] ++
              (6000, some ⟨⟨9/10⟩, ⟨4/5, 1/10, 0, 0, 0, 0⟩⟩) ::
                [(6100, some ⟨⟨9/10⟩, ⟨4/5, 1/10, 0, 0, 0, 0⟩⟩)])) =
        (⟨some 1000, true,
            some (calculateRawFundabilityScore (fun _ => 0) ⟨⟨9/10⟩, ⟨4/5, 1/10, 0, 0, 0, 0⟩⟩),
            some (calculateDeterministicTargetScore (fun _ => 0)
              (calculateRawFundabilityScore (fun _ => 0) ⟨⟨9/10⟩, ⟨4/5, 1/10, 0, 0, 0, 0⟩⟩)
              ⟨⟨9/10⟩, ⟨4/5, 1/10, 0, 0, 0, 0⟩⟩),
            some (calculateAttributes (fun _ => 0) (fun _ => 0)
              ⟨⟨9/10⟩, ⟨4/5, 1/10, 0, 0, 0, 0⟩⟩),
            some (calculateDeterministicAttributeTargets (fun _ => 0)
              (calculateAttributes (fun _ => 0) (fun _ => 0)
                ⟨⟨9/10⟩, ⟨4/5, 1/10, 0, 0, 0, 0⟩⟩)
              ⟨⟨9/10⟩, ⟨4/5, 1/10, 0, 0, 0, 0⟩⟩)⟩,
          ems ++ [{ score := calculateDeterministicTargetScore (fun _ => 0)
                      (calculateRawFundabilityScore (fun _ => 0)
                        ⟨⟨9/10⟩, ⟨4/5, 1/10, 0, 0, 0, 0⟩⟩)
                      ⟨⟨9/10⟩, ⟨4/5, 1/10, 0, 0, 0, 0⟩⟩
                    feedback := getFeedbackMessage (calculateDeterministicTargetScore (fun _ => 0)
                      (calculateRawFundabilityScore (fun _ => 0)
                        ⟨⟨9/10⟩, ⟨4/5, 1/10, 0, 0, 0, 0⟩⟩)
                      ⟨⟨9/10⟩, ⟨4/5, 1/10, 0, 0, 0, 0⟩⟩)
                    isFinal := true
                    attributes := calculateDeterministicAttributeTargets (fun _ => 0)
                      (calculateAttributes (fun _ => 0) (fun _ => 0)
                        ⟨⟨9/10⟩, ⟨4/5, 1/10, 0, 0, 0, 0⟩⟩)
                      ⟨⟨9/10⟩, ⟨4/5, 1/10, 0, 0, 0, 0⟩⟩ }]) ∧
      ∀ em ∈ ems, em.isFinal = false) := by
  refine ⟨by norm_num, ?_, by norm_num [ANALYSIS_DURATION_MS], ?_⟩
  · intro p hp
    rcases List.mem_singleton.mp hp with h
    subst h
    exact ⟨rfl, by norm_num [ANALYSIS_DURATION_MS]⟩
  · exact C1_finalizes_once (fun _ => 0) (fun _ => 0) 1000 (by norm_num)
      ⟨⟨9/10⟩, ⟨4/5, 1/10, 0, 0, 0, 0⟩⟩ ⟨⟨9/10⟩, ⟨4/5, 1/10, 0, 0, 0, 0⟩⟩
      [(1100, some ⟨⟨9/10⟩, ⟨4/5, 1/10, 0, 0, 0, 0⟩⟩)]
      [(6100, some ⟨⟨9/10⟩, ⟨4/5, 1/10, 0, 0, 0, 0⟩⟩)]
      (by intro p hp
          rcases List.mem_singleton.mp hp with h
          subst h
          exact ⟨rfl, by norm_num [ANALYSIS_DURATION_MS]⟩)
      6000 (by norm_num [ANALYSIS_DURATION_MS])

/-! ## Presentation Animator lemmas (claim C7) -/

/-- Attribute animation callbacks never touch the score fields. -/
theorem runAttrQueue_preserves_score (ts : ℤ) :
    ∀ (q : List AttrAnimation) (st : DisplayState),
      (runAttrQueue st q ts).displayScore = st.displayScore ∧
      (runAttrQueue st q ts).currentScore = st.currentScore ∧
      (runAttrQueue st q ts).scoreAnimation = st.scoreAnimation := by
  intro q
  induction q with
  | nil => intro st; exact ⟨rfl, rfl, rfl⟩
  | cons a rest ih =>
    intro st
    simp only [runAttrQueue, stepAttrAnimation]
    split <;> simpa using ih _

/-- With no stored score animation, a refresh frame leaves the displayed
score untouched (only pending attribute callbacks run). -/
theorem frameStep_no_scoreAnimation (st : DisplayState) (h : st.scoreAnimation = none)
    (ts : ℤ) :
    (frameStep st ts).displayScore = st.displayScore ∧
    (frameStep st ts).currentScore = st.currentScore ∧
    (frameStep st ts).scoreAnimation = none := by
  have hq := runAttrQueue_preserves_score ts st.attrAnimations
    { st with attrAnimations := [] }
  simp only [h] at hq
  simp only [frameStep, stepScoreAnimation, h]
  exact ⟨hq.1, hq.2.1, hq.2.2⟩

/-- Refresh frames never change a displayed score that has no in-flight
score animation. -/
theorem runDisplay_frames_fixed_score :
    ∀ (frames : List ℤ) (st : DisplayState), st.scoreAnimation = none →
      (runDisplay st (frames.map DisplayEvent.frame)).displayScore = st.displayScore := by
  intro frames
  induction frames with
  | nil => intro st _; rfl
  | cons ts rest ih =>
    intro st h
    have hf := frameStep_no_scoreAnimation st h ts
    simp only [List.map_cons, runDisplay, displayStep]
    rw [ih _ hf.2.2, hf.1]

/-- C7 counterexample: the attribute animation of `ScoreDisplay` is not
cancelled by a final update, so a pending animation frame overwrites the
finalized displayed attributes.  Concretely: after a non-final update toward
`⟨60,60,60⟩`, a frame at `t=0`, and a final update to `⟨10,10,10⟩`, the
displayed attributes are `⟨10,10,10⟩`; one more frame at `t=50` changes them
to `⟨33,33,33⟩`. -/
theorem C7_counterexample :
    (runDisplay initialDisplayState
      [DisplayEvent.update (some 0) (some ⟨60, 60, 60⟩) false,
       DisplayEvent.frame 0,
       DisplayEvent.update (some 10) (some ⟨10, 10, 10⟩) true]).displayAttributes =
      ⟨10, 10, 10⟩ ∧
    (runDisplay initialDisplayState
      [DisplayEvent.update (some 0) (some ⟨60, 60, 60⟩) false,
       DisplayEvent.frame 0,
       DisplayEvent.update (some 10) (some ⟨10, 10, 10⟩) true,
       DisplayEvent.frame 50]).displayAttributes =
      ⟨33, 33, 33⟩ ∧
    (⟨33, 33, 33⟩ : FundabilityAttributes) ≠ ⟨10, 10, 10⟩ := by
  refine ⟨?_, ?_, by decide⟩ <;>
    norm_num [runDisplay, displayStep, receiveUpdate, frameStep, runAttrQueue,
      stepScoreAnimation, stepAttrAnimation, easeOutQuad, jround, jclamp,
      initialDisplayState, ANIMATION_DURATION_MS, Int.floor_eq_iff]

/-- C7 (amended): a new incoming score update cancels any in-flight score
transition and starts a fresh one from the then-current displayed score
(whose tracking ref always equals the displayed score); a final update sets
the displayed score and attributes immediately and cancels any in-flight
score transition, so no later animation frame overwrites the finalized
displayed score.  (In-flight attribute transitions, by contrast, are not
cancelled — see the counterexample.) -/
theorem C7_amended :
    (∀ (st : DisplayState) (s : ℤ) (oa : Option FundabilityAttributes),
      (receiveUpdate st (some s) oa false).scoreAnimation =
        some { startTime := none, startValue := st.currentScore, targetScore := s }) ∧
    (∀ (st : DisplayState) (e : DisplayEvent), st.currentScore = st.displayScore →
      (displayStep st e).currentScore = (displayStep st e).displayScore) ∧
    (∀ (st : DisplayState) (s : ℤ) (oa : Option FundabilityAttributes),
      (receiveUpdate st (some s) oa true).displayScore = s ∧
      (receiveUpdate st (some s) oa true).currentScore = s ∧
      (receiveUpdate st (some s) oa true).scoreAnimation = none) ∧
    (∀ (st : DisplayState) (s : ℤ) (a : FundabilityAttributes),
      (receiveUpdate st (some s) (some a) true).displayAttributes = a ∧
      (receiveUpdate st (some s) (some a) true).currentAttributes = a) ∧
    (∀ (st : DisplayState) (s : ℤ) (oa : Option FundabilityAttributes) (frames : List ℤ),
      (runDisplay (receiveUpdate st (some s) oa true)
        (frames.map DisplayEvent.frame)).displayScore = s) := by
  refine ⟨?_, ?_, ?_, ?_, ?_⟩
  · intro st s oa
    cases oa with
    | none => rfl
    | some a => simp [receiveUpdate]
  · intro st e h
    cases e with
    | update s a f =>
      cases s with
      | none => cases a with
        | none => simp [displayStep, receiveUpdate]
        | some x => cases f <;> simp [displayStep, receiveUpdate]
      | some v =>
        cases a with
        | none => cases f <;> simp [displayStep, receiveUpdate, h]
        | some x => cases f <;> simp [displayStep, receiveUpdate, h]
    | frame ts =>
      simp only [displayStep, frameStep]
      cases hsa : st.scoreAnimation with
      | none =>
        have hq := runAttrQueue_preserves_score ts
          (stepScoreAnimation st ts).attrAnimations
          { stepScoreAnimation st ts with attrAnimations := [] }
        rw [hq.1, hq.2.1]
        simp [stepScoreAnimation, hsa, h]
      | some a =>
        have hq := runAttrQueue_preserves_score ts
          (stepScoreAnimation st ts).attrAnimations
          { stepScoreAnimation st ts with attrAnimations := [] }
        rw [hq.1, hq.2.1]
        simp [stepScoreAnimation, hsa]
  · intro st s oa
    cases oa with
    | none => exact ⟨rfl, rfl, rfl⟩
    | some a => refine ⟨?_, ?_, ?_⟩ <;> simp [receiveUpdate]
  · intro st s a
    constructor <;> simp [receiveUpdate]
  · intro st s oa frames
    have h3 : (receiveUpdate st (some s) oa true).scoreAnimation = none := by
      cases oa with
      | none => rfl
      | some a => simp [receiveUpdate]
    have h1 : (receiveUpdate st (some s) oa true).displayScore = s := by
      cases oa with
      | none => rfl
      | some a => simp [receiveUpdate]
    rw [runDisplay_frames_fixed_score frames _ h3, h1]

theorem C7_witness :
    (receiveUpdate ⟨5, 5, some ⟨some 0, 0, 9⟩, ⟨0, 0, 0⟩, ⟨0, 0, 0⟩, []⟩ (some 42) none
        false).scoreAnimation =
      some { startTime := none, startValue := 5, targetScore := 42 } ∧
    initialDisplayState.currentScore = initialDisplayState.displayScore ∧
    (displayStep initialDisplayState (DisplayEvent.frame 0)).currentScore =
      (displayStep initialDisplayState (DisplayEvent.frame 0)).displayScore ∧
    ((receiveUpdate initialDisplayState (some 7) none true).displayScore = 7 ∧
      (receiveUpdate initialDisplayState (some 7) none true).currentScore = 7 ∧
      (receiveUpdate initialDisplayState (some 7) none true).scoreAnimation = none) ∧
    ((receiveUpdate initialDisplayState (some 7) (some ⟨1, 2, 3⟩) true).displayAttributes =
        ⟨1, 2, 3⟩ ∧
      (receiveUpdate initialDisplayState (some 7) (some ⟨1, 2, 3⟩) true).currentAttributes =
        ⟨1, 2, 3⟩) ∧
    (runDisplay (receiveUpdate initialDisplayState (some 7) none true)
      ([0, 50].map DisplayEvent.frame)).displayScore = 7 :=
  ⟨C7_amended.1 ⟨5, 5, some ⟨some 0, 0, 9⟩, ⟨0, 0, 0⟩, ⟨0, 0, 0⟩, []⟩ 42 none, rfl,
    C7_amended.2.1 initialDisplayState (DisplayEvent.frame 0) rfl,
    C7_amended.2.2.1 initialDisplayState 7 none,
    C7_amended.2.2.2.1 initialDisplayState 7 ⟨1, 2, 3⟩,
    C7_amended.2.2.2.2 initialDisplayState 7 none [0, 50]⟩
